import Mathlib

/-!
Formal model of `flow/navier_stokes/pressure_correction.py`.

The finite-element backend (dolfin) is abstracted as an `Env`: fields are
elements of abstract rational vector spaces, the primitive integral forms
appearing in the Python source are opaque assembly operations (linear in
their field argument exactly where integration is), and the linear and
nonlinear solver services are opaque functions returning either a field or
a convergence failure.  The functions `_rhs_weak`,
`_compute_tentative_velocity`, `_compute_pressure`,
`_compute_velocity_correction`, `_step` and the three scheme classes
(`Chorin`, `IPCS`, `Rotational`) are transcribed from the source; besides
the Python return values they expose the solver-call records (forms,
boundary conditions, solver parameter dictionaries) that the source hands
to the backend, so the theorems below can speak about them.  A second,
heap-based model (`stepA`) captures the allocation and mutation behaviour
of the same functions.  Concrete instances (a one-dimensional P2 velocity
and P1 pressure discretization of the unit interval) instantiate the
abstract backend in the witnesses.
-/

/-- Convergence failure reported by an external linear or nonlinear solver
(with `error_on_nonconvergence` dolfin raises on failure). -/
inductive SolveErr where
  | nonconvergence
  deriving DecidableEq

/-- Failures a step can produce: a Python `assert` firing, or a solver failure
propagated out of one of the three sub-solves. -/
inductive Err where
  | assertionError
  | solver (e : SolveErr)
  deriving DecidableEq

/-- The `newton_solver` parameter dictionary passed by
`_compute_tentative_velocity` to dolfin `solve`. -/
structure NewtonParams where
  nonlinear_solver : String
  maximum_iterations : Nat
  report : Bool
  absolute_tolerance : ℚ
  relative_tolerance : ℚ
  error_on_nonconvergence : Bool
  deriving DecidableEq

/-- Parameters of an iterative linear solve.  The Dirichlet pressure path and
the velocity correction use the dolfin `solve` interface (`linear_solver`,
`symmetric`, `preconditioner`, `krylov_solver` sub-dictionary); the
pure-Neumann pressure path builds a `PETScKrylovSolver` directly (method
`cg`, an AMG preconditioner whose coarse-level relaxation is set through
`PETScOptions`).  Fields not set by a path are `none`. -/
structure KrylovParams where
  linear_solver : String
  symmetric : Option Bool
  preconditioner : String
  relative_tolerance : ℚ
  absolute_tolerance : ℚ
  maximum_iterations : Nat
  monitor_convergence : Bool
  error_on_nonconvergence : Bool
  boomeramg_relax_type_coarse : Option String
  deriving DecidableEq

/-- A nonlinear (Newton) solve request: the residual as a function of the
unknown, boundary conditions, the Jacobian, the initial guess written into
the unknown before the solve, and the solver parameters. -/
structure NewtonCall (V Tv B : Type) where
  F1 : V → Tv
  bcs : B
  J : V → V → Tv
  initial : V
  params : NewtonParams

/-- A linear solve request `A x = b`, with optional Dirichlet conditions. -/
structure LinSolveCall (X T B : Type) where
  A : X → T
  b : T
  bcs : Option B
  params : KrylovParams

/-- Abstract finite-element backend.  `S` are scalar (pressure-space) fields,
`V` vector (velocity-space) fields, `T` assembled linear forms over the
pressure test space, `Tv` assembled linear forms over the velocity test
space, `B` boundary-condition sets.  The `int...` fields are the primitive
integrals appearing in the source (`q` the pressure test function, `v` the
velocity test function, `n` the outward normal):

* `intMul s`      is `s * q * dx`,
* `intGrad s`     is `dot(grad(s), grad(q)) * dx`,
* `vintMul w`     is `inner(w, v) * dx`,
* `vintGradS s`   is `inner(grad(s), v) * dx`,
* `intF f`        is `inner(f, v) * dx`,
* `intConv1 a b`  is `inner(grad(a)*b, v) * dx`,
* `intConv2 a b`  is `inner(grad(v)*a, b) * dx`,
* `intSigmaEps mu w s` is `inner(sigma(w, s), epsilon(v)) * dx`,
* `intPN s`       is `inner(s*n, v) * ds`,
* `intBnd w`      is `inner(grad(w).T*n, v) * ds`.

Assembly of the stiffness form is additive (`intGrad_sub`), which is the
only linearity fact the theorems need.  `derivative` is the symbolic UFL
derivative; the four `solve...` fields are the backend solver services. -/
structure Env (S V T Tv B : Type) [AddCommGroup S] [Module ℚ S] [AddCommGroup V]
    [AddCommGroup T] [Module ℚ T] [AddCommGroup Tv] [Module ℚ Tv] where
  div : V → S
  intMul : S → T
  intGrad : S → T
  intGrad_sub : ∀ a b : S, intGrad (a - b) = intGrad a - intGrad b
  vintMul : V → Tv
  vintGradS : S → Tv
  intF : V → Tv
  intConv1 : V → V → Tv
  intConv2 : V → V → Tv
  intSigmaEps : ℚ → V → S → Tv
  intPN : S → Tv
  intBnd : V → Tv
  derivative : (V → Tv) → (V → V → Tv)
  solveNewton : NewtonCall V Tv B → Except SolveErr V
  solveIterativeS : LinSolveCall S T B → Except SolveErr S
  solveCG : LinSolveCall S T B → Except SolveErr S
  solveIterativeV : LinSolveCall V Tv B → Except SolveErr V

/-- Record of the three solver calls one `_step` makes (instrumentation:
the source announces each of the three sub-solves in a `Message` block). -/
structure StepTrace (S V T Tv B : Type) where
  newton : NewtonCall V Tv B
  pressure : LinSolveCall S T B
  correction : LinSolveCall V Tv B

/-- Formal accuracy orders declared by a scheme class (`order` dictionary). -/
structure SchemeOrder where
  velocity : ℚ
  pressure : ℚ
  deriving DecidableEq

def forward_euler : String := "forward euler"

def backward_euler : String := "backward euler"

def crank_nicolson : String := "crank-nicolson"

def jacobi : String := "jacobi"

variable {S V T Tv B : Type}
variable [AddCommGroup S] [Module ℚ S] [AddCommGroup V]
variable [AddCommGroup T] [Module ℚ T] [AddCommGroup Tv] [Module ℚ Tv]

/-- Transcription of `_rhs_weak(u, v, f, rho, mu, p0)`: force term, minus the
skew-symmetrized convection scaled by `rho * 0.5`, minus the stress-strain
contraction `inner(sigma(u, p0), epsilon(v))`, minus the pressure boundary
flux, plus the viscous boundary correction.  The test function `v` is
implicit in the assembled atoms. -/
def _rhs_weak (E : Env S V T Tv B) (u : V) (f : V) (rho mu : ℚ) (p0 : S) : Tv :=
  E.intF f
    - (rho * (1/2 : ℚ)) • (E.intConv1 u u - E.intConv2 u u)
    - E.intSigmaEps mu u p0
    - E.intPN p0
    + mu • E.intBnd u

/-- The `solver_parameters` dictionary of the tentative-velocity solve:
Newton, at most 10 iterations, absolute tolerance `tol`, relative
tolerance 0, error on non-convergence. -/
def newtonParams (tol : ℚ) : NewtonParams :=
  ⟨"newton", 10, true, tol, 0, true⟩

/-- The Newton solve `_compute_tentative_velocity` hands to dolfin `solve`:
the residual `F1` per `time_step_method` (the unknown `ui` is the function
argument), the Jacobian `J = derivative(F1, ui)`, the initial guess
`ui.assign(u[0])`, the boundary conditions and the parameter dictionary;
paired with the scheme weight `alpha` set in the same branch.  The
`crank-nicolson` branch is the Python `else` branch; its `assert` is
modelled in `_compute_tentative_velocity`. -/
def tentativeCall (E : Env S V T Tv B) (u : ℤ → V) (p0 : S) (f : ℤ → V) (u_bcs : B)
    (time_step_method : String) (rho mu dt tol : ℚ) : NewtonCall V Tv B × ℚ :=
  if time_step_method = forward_euler then
    let F1 := fun ui =>
      E.vintMul (ui - u 0) - (dt / rho) • _rhs_weak E (u 0) (f 0) rho mu p0
    (⟨F1, u_bcs, E.derivative F1, u 0, newtonParams tol⟩, 1)
  else if time_step_method = backward_euler then
    let F1 := fun ui =>
      E.vintMul (ui - u 0) - (dt / rho) • _rhs_weak E ui (f 1) rho mu p0
    (⟨F1, u_bcs, E.derivative F1, u 0, newtonParams tol⟩, 1)
  else
    let F1 := fun ui =>
      E.vintMul (ui - u 0)
        - (dt / rho * (1/2 : ℚ)) •
            (_rhs_weak E (u 0) (f 0) rho mu p0 + _rhs_weak E ui (f 1) rho mu p0)
    (⟨F1, u_bcs, E.derivative F1, u 0, newtonParams tol⟩, 1)

/-- Transcription of `_compute_tentative_velocity`: dispatch on
`time_step_method` (the Python `else` branch asserts it is
`crank-nicolson`, so an unknown method is an assertion failure before any
solve), run the Newton solve, return `(ui, alpha)` together with the call
record. -/
def _compute_tentative_velocity (E : Env S V T Tv B) (u : ℤ → V) (p0 : S) (f : ℤ → V)
    (u_bcs : B) (time_step_method : String) (rho mu dt tol : ℚ) :
    Except Err ((V × ℚ) × NewtonCall V Tv B) :=
  if time_step_method = forward_euler ∨ time_step_method = backward_euler
      ∨ time_step_method = crank_nicolson then
    let c := tentativeCall E u p0 f u_bcs time_step_method rho mu dt tol
    match E.solveNewton c.1 with
    | Except.error e => Except.error (Err.solver e)
    | Except.ok ui => Except.ok ((ui, c.2), c.1)
  else Except.error Err.assertionError

/-- Parameters of the Dirichlet-pressure path and of the velocity
correction: dolfin `solve`, iterative, symmetric, AMG preconditioner,
relative tolerance `tol`, absolute tolerance 0, at most 100 iterations,
error on non-convergence. -/
def dirichletKrylovParams (tol : ℚ) (verbose : Bool) : KrylovParams :=
  ⟨"iterative", some true, "hypre_amg", tol, 0, 100, verbose, true, none⟩

/-- Parameters of the pure-Neumann pressure path: CG with a `hypre_amg`
preconditioner whose coarse-level relaxation is set to Jacobi, relative
tolerance `tol`, absolute tolerance 0, at most 1000 iterations, error on
non-convergence. -/
def neumannKrylovParams (tol : ℚ) (verbose : Bool) : KrylovParams :=
  ⟨"cg", none, "hypre_amg", tol, 0, 1000, verbose, true, some jacobi⟩

/-- The linear system `_compute_pressure` assembles: bilinear form
`a2 = dot(grad(p), grad(q)) * dx`, linear form built incrementally as in
the source (`L2 = -alpha*rho/dt * div_ui*q*dx`, then
`L2 += dot(grad(p0), grad(q))*dx`, then, if rotational form,
`L2 -= mu * dot(grad(div_ui), grad(q))*dx`), dispatched to the Dirichlet
(`solve`) or pure-Neumann (assemble + `PETScKrylovSolver`) parameters.
The right-hand side of the Neumann path is the assembled `L2` itself:
the source deliberately does not project out its null-space component.
Selection of the function space from `p0` or `p_function_space` is not
modelled (spaces are the type parameters here). -/
def pressureSystem (E : Env S V T Tv B) (p0 : S) (alpha rho dt mu : ℚ) (div_ui : S)
    (p_bcs : Option B) (rotational_form : Bool) (tol : ℚ) (verbose : Bool) :
    LinSolveCall S T B :=
  let a2 : S → T := fun p => E.intGrad p
  let L2a := (-(alpha * rho / dt)) • E.intMul div_ui
  let L2b := L2a + E.intGrad p0
  let L2 := if rotational_form then L2b - mu • E.intGrad div_ui else L2b
  match p_bcs with
  | some _ => ⟨a2, L2, p_bcs, dirichletKrylovParams tol verbose⟩
  | none => ⟨a2, L2, none, neumannKrylovParams tol verbose⟩

/-- Transcription of `_compute_pressure`: build the system, then solve it
through the dolfin `solve` service when Dirichlet conditions are supplied
and through the raw PETSc CG service otherwise; either failure is
propagated.  Returns `p1` together with the call record. -/
def _compute_pressure (E : Env S V T Tv B) (p0 : S) (alpha rho dt mu : ℚ) (div_ui : S)
    (p_bcs : Option B) (rotational_form : Bool) (tol : ℚ) (verbose : Bool) :
    Except Err (S × LinSolveCall S T B) :=
  let call := pressureSystem E p0 alpha rho dt mu div_ui p_bcs rotational_form tol verbose
  match p_bcs with
  | some _ =>
    match E.solveIterativeS call with
    | Except.error e => Except.error (Err.solver e)
    | Except.ok p1 => Except.ok (p1, call)
  | none =>
    match E.solveCG call with
    | Except.error e => Except.error (Err.solver e)
    | Except.ok p1 => Except.ok (p1, call)

/-- The mass-matrix system `_compute_velocity_correction` assembles:
`a3 = inner(u2, v) * dx`, `phi = p1 - p0` (plus `mu * div(ui)` in
rotational form), `L3 = inner(ui, v)*dx - dt/rho * inner(grad(phi), v)*dx`,
with the velocity Dirichlet conditions and the same solver parameters as
the Dirichlet pressure path. -/
def correctionSystem (E : Env S V T Tv B) (ui : V) (u : ℤ → V) (u_bcs : B) (p1 p0 : S)
    (mu rho dt : ℚ) (rotational_form : Bool) (tol : ℚ) (verbose : Bool) :
    LinSolveCall V Tv B :=
  let a3 : V → Tv := fun u2 => E.vintMul u2
  let phi0 := p1 - p0
  let phi := if rotational_form then phi0 + mu • E.div ui else phi0
  let L3 := E.vintMul ui - (dt / rho) • E.vintGradS phi
  ⟨a3, L3, some u_bcs, dirichletKrylovParams tol verbose⟩

/-- Transcription of `_compute_velocity_correction`: build the mass-matrix
system, solve it through the dolfin `solve` service, propagate failure.
Returns `u1` together with the call record. -/
def _compute_velocity_correction (E : Env S V T Tv B) (ui : V) (u : ℤ → V) (u_bcs : B)
    (p1 p0 : S) (mu rho dt : ℚ) (rotational_form : Bool) (tol : ℚ) (verbose : Bool) :
    Except Err (V × LinSolveCall V Tv B) :=
  let call := correctionSystem E ui u u_bcs p1 p0 mu rho dt rotational_form tol verbose
  match E.solveIterativeV call with
  | Except.error e => Except.error (Err.solver e)
  | Except.ok u1 => Except.ok (u1, call)

/-- Transcription of `_step`: first the two assertions (`assert dt > 0`,
`assert mu > 0` — the source checks `dt` and `mu` only, not `rho`), then
tentative velocity (note the hard-coded `tol=1.0e-10` at that call site),
pressure with `div_ui = div(ui)`, and velocity correction, each failure
aborting the step.  Returns `(u1, p1)` plus the trace of solver calls. -/
def _step (E : Env S V T Tv B) (dt : ℚ) (u : ℤ → V) (p0 : S) (u_bcs : B)
    (p_bcs : Option B) (rho mu : ℚ) (time_step_method : String) (f : ℤ → V)
    (rotational_form : Bool) (verbose : Bool) (tol : ℚ) :
    Except Err ((V × S) × StepTrace S V T Tv B) :=
  if 0 < dt then
    if 0 < mu then
      match _compute_tentative_velocity E u p0 f u_bcs time_step_method rho mu dt
          (1/10^10 : ℚ) with
      | Except.error e => Except.error e
      | Except.ok ((ui, alpha), newtonC) =>
        match _compute_pressure E p0 alpha rho dt mu (E.div ui) p_bcs rotational_form
            tol verbose with
        | Except.error e => Except.error e
        | Except.ok (p1, pressC) =>
          match _compute_velocity_correction E ui u u_bcs p1 p0 mu rho dt
              rotational_form tol verbose with
          | Except.error e => Except.error e
          | Except.ok (u1, corrC) => Except.ok ((u1, p1), ⟨newtonC, pressC, corrC⟩)
    else Except.error Err.assertionError
  else Except.error Err.assertionError

/-- `Chorin.order`: velocity 1.0, pressure 0.5. -/
def Chorin.order : SchemeOrder := ⟨1, 1/2⟩

/-- Transcription of `Chorin.step`: calls `_step` with a freshly allocated
zero pressure (`Function(p0.function_space())`) in place of the supplied
`p0`, and the time-step method fixed to backward Euler. -/
def Chorin.step (E : Env S V T Tv B) (dt : ℚ) (u : ℤ → V) (p0 : S) (u_bcs : B)
    (p_bcs : Option B) (rho mu : ℚ) (f : ℤ → V) (verbose : Bool) (tol : ℚ) :
    Except Err ((V × S) × StepTrace S V T Tv B) :=
  _step E dt u 0 u_bcs p_bcs rho mu backward_euler f false verbose tol

/-- `IPCS.order`: velocity 2.0, pressure 1.0. -/
def IPCS.order : SchemeOrder := ⟨2, 1⟩

/-- Transcription of `IPCS.step`: forwards the stored `time_step_method` and
the supplied `p0` to `_step`, rotational form off. -/
def IPCS.step (E : Env S V T Tv B) (time_step_method : String) (dt : ℚ) (u : ℤ → V)
    (p0 : S) (u_bcs : B) (p_bcs : Option B) (rho mu : ℚ) (f : ℤ → V)
    (verbose : Bool) (tol : ℚ) :
    Except Err ((V × S) × StepTrace S V T Tv B) :=
  _step E dt u p0 u_bcs p_bcs rho mu time_step_method f false verbose tol

/-- `Rotational.order`: velocity 2.0, pressure 1.5. -/
def Rotational.order : SchemeOrder := ⟨2, 3/2⟩

/-- Transcription of `Rotational.step`: as `IPCS.step` but with
`rotational_form=True`. -/
def Rotational.step (E : Env S V T Tv B) (time_step_method : String) (dt : ℚ)
    (u : ℤ → V) (p0 : S) (u_bcs : B) (p_bcs : Option B) (rho mu : ℚ) (f : ℤ → V)
    (verbose : Bool) (tol : ℚ) :
    Except Err ((V × S) × StepTrace S V T Tv B) :=
  _step E dt u p0 u_bcs p_bcs rho mu time_step_method f true verbose tol

/-- Pressure component of a step result (default `d` when the step failed). -/
def pressureOf (r : Except Err ((V × S) × StepTrace S V T Tv B)) (d : S) : S :=
  match r with
  | Except.ok x => x.1.2
  | Except.error _ => d

/-- Field components of a step result (default `d` when the step failed). -/
def resOf (r : Except Err ((V × S) × StepTrace S V T Tv B)) (d : V × S) : V × S :=
  match r with
  | Except.ok x => x.1
  | Except.error _ => d

/-- Trace component of a step result (default `d` when the step failed). -/
def traceOf (r : Except Err ((V × S) × StepTrace S V T Tv B))
    (d : StepTrace S V T Tv B) : StepTrace S V T Tv B :=
  match r with
  | Except.ok x => x.2
  | Except.error _ => d

/-- How a solver result is wrapped into the result of a `_compute_...`
function once the call record is projected away. -/
def solverResult {X : Type} (r : Except SolveErr X) : Except Err X :=
  match r with
  | Except.error e => Except.error (Err.solver e)
  | Except.ok x => Except.ok x

/-! ## Allocation model

A second embedding of the same call chain, at the level of dolfin
`Function` objects: a heap of field vectors indexed by `Nat`, where
`Function(...)` allocates a fresh zero field, `ui.assign(u[0])` and every
`solve` into a target write that target's slot, and all other accesses are
reads.  The values written by the solvers are opaque functions of the
values read (an `ABackend`).  This is the model for the frame claim: the
caller-supplied history fields are never written, and the returned fields
are freshly allocated. -/

variable {α : Type}

/-- A heap of field vectors: contents and the next fresh identifier. -/
structure Heap (α : Type) where
  mem : Nat → α
  next : Nat

/-- Overwrite the contents of slot `i` (dolfin `assign` or an in-place
solve into an existing `Function`). -/
def Heap.write (h : Heap α) (i : Nat) (a : α) : Heap α :=
  ⟨Function.update h.mem i a, h.next⟩

/-- Allocate a fresh `Function` with contents `a`, returning its id. -/
def Heap.alloc (h : Heap α) (a : α) : Nat × Heap α :=
  (h.next, ⟨Function.update h.mem h.next a, h.next + 1⟩)

/-- Opaque solver outcomes for the allocation model: the value a solve
writes into its target, as a function of the field values it reads. -/
structure ABackend (α : Type) where
  zeroField : α
  newtonResult : α → α → α → α → α → α
  pressureResult : α → α → α
  correctionResult : α → α → α → α

/-- Allocation behaviour of `_compute_tentative_velocity`:
`ui = Function(u[0].function_space())`, `ui.assign(u[0])`,
`solve(F1 == 0, ui, ...)` (the Newton solve reads `u[0]`, `p0`, `f[0]`,
`f[1]` and the initial guess stored in `ui`, and writes `ui`). -/
def computeTentativeVelocityA (Bk : ABackend α) (h : Heap α) (u0 p0 f0 f1 : Nat) :
    Nat × Heap α :=
  let r := h.alloc Bk.zeroField
  let ui := r.1
  let h1 := r.2
  let h2 := h1.write ui (h1.mem u0)
  let h3 := h2.write ui
    (Bk.newtonResult (h2.mem u0) (h2.mem p0) (h2.mem f0) (h2.mem f1) (h2.mem ui))
  (ui, h3)

/-- Allocation behaviour of `_compute_pressure`: `p1 = Function(P)`, then
either path solves into `p1` (reading `p0` and `div(ui)`). -/
def computePressureA (Bk : ABackend α) (h : Heap α) (p0 ui : Nat) : Nat × Heap α :=
  let r := h.alloc Bk.zeroField
  let p1 := r.1
  let h1 := r.2
  let h2 := h1.write p1 (Bk.pressureResult (h1.mem p0) (h1.mem ui))
  (p1, h2)

/-- Allocation behaviour of `_compute_velocity_correction`:
`u1 = Function(u[0].function_space())`, `solve(a3 == L3, u1, ...)`
(reading `ui`, `p1`, `p0` and writing `u1`). -/
def computeVelocityCorrectionA (Bk : ABackend α) (h : Heap α) (ui p1 p0 : Nat) :
    Nat × Heap α :=
  let r := h.alloc Bk.zeroField
  let u1 := r.1
  let h1 := r.2
  let h2 := h1.write u1
    (Bk.correctionResult (h1.mem ui) (h1.mem p1) (h1.mem p0))
  (u1, h2)

/-- Allocation behaviour of `_step`: the three sub-solves in sequence on the
caller's heap; the caller supplies the ids of `u[0]`, `u[-1]`, `p0`,
`f[0]`, `f[1]` and receives the ids of the corrected velocity and the new
pressure (`u[-1]` is read by no current scheme, matching the source). -/
def stepA (Bk : ABackend α) (h : Heap α) (u0 um1 p0 f0 f1 : Nat) :
    (Nat × Nat) × Heap α :=
  let rT := computeTentativeVelocityA Bk h u0 p0 f0 f1
  let ui := rT.1
  let h1 := rT.2
  let rP := computePressureA Bk h1 p0 ui
  let p1 := rP.1
  let h2 := rP.2
  let rC := computeVelocityCorrectionA Bk h2 ui p1 p0
  let u1 := rC.1
  let h3 := rC.2
  ((u1, p1), h3)

/-! ## Concrete backend instances

A one-dimensional discretization of the unit interval: scalar fields are
the affine functions `s₀ + s₁ x` (a P1 pressure space, coordinates
`(s₀, s₁)`), vector fields are the quadratics `u₀ + u₁ x + u₂ x²` (a P2
velocity space, coordinates `(u₀, u₁, u₂)`).  Divergence is the
derivative, the pressure test space has the hat basis `{1 - x, x}`, and
the scalar assembly maps are the exact integrals over `[0, 1]`:
`intMul s = (∫ s (1-x), ∫ s x)` and `intGrad s = (∫ s q₁, ∫ s q₂)`
with `q₁' = -1, q₂' = 1`.  The solver services succeed and return simple
exact values; `toyEnvFail` is the same backend with every solver failing. -/

/-- Scalar fields of the concrete instance: `s₀ + s₁ x`. -/
abbrev QS : Type := ℚ × ℚ

/-- Vector fields of the concrete instance: `u₀ + u₁ x + u₂ x²`. -/
abbrev QV : Type := ℚ × ℚ × ℚ

/-- Divergence on the concrete instance: the derivative, evaluated in the
P1 coordinates `(u₁, 2 u₂)`. -/
def toyDiv : QV → QS := fun w => (w.2.1, 2 * w.2.2)

/-- `∫ s q dx` against the hat basis on `[0, 1]`. -/
def toyIntMul : QS → QS := fun s => (s.1 / 2 + s.2 / 6, s.1 / 2 + s.2 / 3)

/-- `∫ s' q' dx` against the hat basis on `[0, 1]`. -/
def toyIntGrad : QS → QS := fun s => (-s.2, s.2)

/-- The concrete backend with succeeding solvers.  The Newton service
returns the velocity `x` (coordinates `(0, 1, 0)`), whose divergence is
the nonzero constant 1; the linear services return the right-hand side
itself (an injective, hence exact-solver-like, behaviour on this small
space). -/
def toyEnv : Env QS QV QS QV Unit where
  div := toyDiv
  intMul := toyIntMul
  intGrad := toyIntGrad
  intGrad_sub := by
    intro a b
    simp only [toyIntGrad, Prod.snd_sub, Prod.mk_sub_mk, neg_sub, Prod.mk.injEq]
    constructor <;> ring_nf
  vintMul := fun w => w
  vintGradS := fun s => (s.1, s.2, 0)
  intF := fun f => f
  intConv1 := fun _ _ => 0
  intConv2 := fun _ _ => 0
  intSigmaEps := fun _ _ _ => 0
  intPN := fun _ => 0
  intBnd := fun _ => 0
  derivative := fun _ _ _ => 0
  solveNewton := fun _ => Except.ok (0, 1, 0)
  solveIterativeS := fun c => Except.ok c.b
  solveCG := fun c => Except.ok c.b
  solveIterativeV := fun c => Except.ok c.b

/-- The concrete backend with every solver failing to converge. -/
def toyEnvFail : Env QS QV QS QV Unit where
  div := toyDiv
  intMul := toyIntMul
  intGrad := toyIntGrad
  intGrad_sub := by
    intro a b
    simp only [toyIntGrad, Prod.snd_sub, Prod.mk_sub_mk, neg_sub, Prod.mk.injEq]
    constructor <;> ring_nf
  vintMul := fun w => w
  vintGradS := fun s => (s.1, s.2, 0)
  intF := fun f => f
  intConv1 := fun _ _ => 0
  intConv2 := fun _ _ => 0
  intSigmaEps := fun _ _ _ => 0
  intPN := fun _ => 0
  intBnd := fun _ => 0
  derivative := fun _ _ _ => 0
  solveNewton := fun _ => Except.error SolveErr.nonconvergence
  solveIterativeS := fun _ => Except.error SolveErr.nonconvergence
  solveCG := fun _ => Except.error SolveErr.nonconvergence
  solveIterativeV := fun _ => Except.error SolveErr.nonconvergence

/-- A concrete velocity history (all zero). -/
def toyU : ℤ → QV := fun _ => 0

/-- A concrete force history (all zero). -/
def toyF : ℤ → QV := fun _ => 0

/-- A concrete previous pressure (zero). -/
def toyP0 : QS := 0

/-- A concrete full step on the succeeding backend. -/
def toyStepRun : Except Err ((QV × QS) × StepTrace QS QV QS QV Unit) :=
  _step toyEnv 1 toyU toyP0 () none 1 1 backward_euler toyF false true 1

/-- A placeholder trace used as the default of `traceOf`. -/
def toyTraceDefault : StepTrace QS QV QS QV Unit :=
  ⟨⟨fun _ => 0, (), fun _ _ => 0, 0, newtonParams 1⟩,
   ⟨fun _ => 0, 0, none, neumannKrylovParams 1 true⟩,
   ⟨fun _ => 0, 0, none, neumannKrylovParams 1 true⟩⟩

/-- The fields returned by the concrete step. -/
def toyRes : QV × QS := resOf toyStepRun (0, 0)

/-- The solver-call trace of the concrete step. -/
def toyTrace : StepTrace QS QV QS QV Unit := traceOf toyStepRun toyTraceDefault

/-- Opaque solver outcomes for the concrete allocation model. -/
def toyBk : ABackend ℚ := ⟨0, fun _ _ _ _ _ => 0, fun _ _ => 0, fun _ _ _ => 0⟩

/-- A concrete heap holding five caller-owned fields in slots 0 to 4. -/
def toyHeap : Heap ℚ := ⟨fun _ => 0, 5⟩

/-! ## Helper lemmas -/

/-- The Newton parameter dictionary is the same in all three method branches. -/
theorem tentativeCall_params (E : Env S V T Tv B) (u : ℤ → V) (p0 : S) (f : ℤ → V)
    (u_bcs : B) (m : String) (rho mu dt tol : ℚ) :
    (tentativeCall E u p0 f u_bcs m rho mu dt tol).1.params = newtonParams tol := by
  unfold tentativeCall
  split_ifs <;> rfl

/-- The call record a successful tentative-velocity computation returns is
exactly the call it made. -/
theorem compute_tentative_ok (E : Env S V T Tv B) (u : ℤ → V) (p0 : S) (f : ℤ → V)
    (u_bcs : B) (m : String) (rho mu dt tol : ℚ) (x : V × ℚ) (c : NewtonCall V Tv B)
    (h : _compute_tentative_velocity E u p0 f u_bcs m rho mu dt tol = Except.ok (x, c)) :
    c = (tentativeCall E u p0 f u_bcs m rho mu dt tol).1 := by
  unfold _compute_tentative_velocity at h
  split at h
  · dsimp only at h
    split at h
    · exact Except.noConfusion h
    · simp only [Except.ok.injEq, Prod.mk.injEq] at h
      exact h.2.symm
  · exact Except.noConfusion h

/-- The relative tolerance of the pressure system is `tol` on both paths. -/
theorem pressureSystem_relTol (E : Env S V T Tv B) (p0 : S) (alpha rho dt mu : ℚ)
    (div_ui : S) (p_bcs : Option B) (rot : Bool) (tol : ℚ) (verbose : Bool) :
    (pressureSystem E p0 alpha rho dt mu div_ui p_bcs rot tol verbose).params.relative_tolerance
      = tol := by
  unfold pressureSystem
  cases p_bcs <;> rfl

/-- The call record a successful pressure computation returns is exactly the
system it assembled. -/
theorem compute_pressure_ok (E : Env S V T Tv B) (p0 : S) (alpha rho dt mu : ℚ)
    (div_ui : S) (p_bcs : Option B) (rot : Bool) (tol : ℚ) (verbose : Bool) (p1 : S)
    (c : LinSolveCall S T B)
    (h : _compute_pressure E p0 alpha rho dt mu div_ui p_bcs rot tol verbose
      = Except.ok (p1, c)) :
    c = pressureSystem E p0 alpha rho dt mu div_ui p_bcs rot tol verbose := by
  unfold _compute_pressure at h
  cases p_bcs with
  | none =>
    dsimp only at h
    split at h
    · exact Except.noConfusion h
    · simp only [Except.ok.injEq, Prod.mk.injEq] at h
      exact h.2.symm
  | some bc =>
    dsimp only at h
    split at h
    · exact Except.noConfusion h
    · simp only [Except.ok.injEq, Prod.mk.injEq] at h
      exact h.2.symm

/-- The call record a successful velocity correction returns is exactly the
system it assembled. -/
theorem compute_correction_ok (E : Env S V T Tv B) (ui : V) (u : ℤ → V) (u_bcs : B)
    (p1 p0 : S) (mu rho dt : ℚ) (rot : Bool) (tol : ℚ) (verbose : Bool) (u1 : V)
    (c : LinSolveCall V Tv B)
    (h : _compute_velocity_correction E ui u u_bcs p1 p0 mu rho dt rot tol verbose
      = Except.ok (u1, c)) :
    c = correctionSystem E ui u u_bcs p1 p0 mu rho dt rot tol verbose := by
  unfold _compute_velocity_correction at h
  dsimp only at h
  split at h
  · exact Except.noConfusion h
  · simp only [Except.ok.injEq, Prod.mk.injEq] at h
    exact h.2.symm

/-- `solverResult` is injective. -/
theorem solverResult_inj {X : Type} (a b : Except SolveErr X)
    (h : solverResult a = solverResult b) : a = b := by
  cases a <;> cases b <;> simp_all [solverResult]

/-- In the pure-Neumann path, the pressure result (call record dropped) is the
wrapped result of the CG service on the assembled system. -/
theorem compute_pressure_neumann_map (E : Env S V T Tv B) (p0 : S)
    (alpha rho dt mu : ℚ) (div_ui : S) (rot : Bool) (tol : ℚ) (verbose : Bool) :
    Except.map (fun x => x.1)
        (_compute_pressure E p0 alpha rho dt mu div_ui none rot tol verbose)
      = solverResult
          (E.solveCG (pressureSystem E p0 alpha rho dt mu div_ui none rot tol verbose)) := by
  unfold _compute_pressure
  dsimp only
  cases h : E.solveCG (pressureSystem E p0 alpha rho dt mu div_ui none rot tol verbose) <;>
    simp [h, solverResult, Except.map]

/-! ## Claim theorems -/

/-- Claim C2 (confirmed): the pressure step solves the system with bilinear
form `∫∇p·∇q` and linear form `−α ρ/dt ∫div(u*) q + ∫∇p0·∇q`, minus,
exactly when rotational form is requested, `mu ∫∇(div u*)·∇q`; and any
`p1` solving this system is such that its increment `p1 − p0` solves the
system without the carried-forward `∫∇p0·∇q` term, i.e. the solved
quantity is the full new pressure `p0 + increment`, not a bare increment. -/
theorem C2_pressure_system (E : Env S V T Tv B) (p0 : S) (alpha rho dt mu : ℚ)
    (div_ui : S) (p_bcs : Option B) (rotational_form : Bool) (tol : ℚ)
    (verbose : Bool) :
    ((pressureSystem E p0 alpha rho dt mu div_ui p_bcs rotational_form tol verbose).A
        = fun p => E.intGrad p)
    ∧ ((pressureSystem E p0 alpha rho dt mu div_ui p_bcs rotational_form tol verbose).b
        = (-(alpha * rho / dt)) • E.intMul div_ui + E.intGrad p0
          - (if rotational_form then mu • E.intGrad div_ui else 0))
    ∧ ∀ p1 : S,
        E.intGrad p1
            = (pressureSystem E p0 alpha rho dt mu div_ui p_bcs rotational_form tol verbose).b
          ↔ E.intGrad (p1 - p0)
              = (-(alpha * rho / dt)) • E.intMul div_ui
                - (if rotational_form then mu • E.intGrad div_ui else 0) := by
  have hA : (pressureSystem E p0 alpha rho dt mu div_ui p_bcs rotational_form tol verbose).A
      = fun p => E.intGrad p := by
    unfold pressureSystem
    cases p_bcs <;> rfl
  have hb : (pressureSystem E p0 alpha rho dt mu div_ui p_bcs rotational_form tol verbose).b
      = (-(alpha * rho / dt)) • E.intMul div_ui + E.intGrad p0
        - (if rotational_form then mu • E.intGrad div_ui else 0) := by
    unfold pressureSystem
    cases p_bcs <;> cases rotational_form <;> simp
  refine ⟨hA, hb, ?_⟩
  intro p1
  rw [hb, E.intGrad_sub]
  constructor
  · intro h
    rw [h]
    abel
  · intro h
    rw [sub_eq_iff_eq_add.mp h]
    abel

/-- Claim C3 (confirmed): the tentative-velocity residual is
`F1 = (u_i − u_old)·v − (dt/rho)·rhs` with `rhs` evaluated at the old
state with the old force for forward Euler, at the unknown state with the
new force for backward Euler, and as the average of those two evaluations
for Crank–Nicolson; `alpha = 1` in all three cases. -/
theorem C3_tentative_residuals (E : Env S V T Tv B) (u : ℤ → V) (p0 : S) (f : ℤ → V)
    (u_bcs : B) (rho mu dt tol : ℚ) :
    ((tentativeCall E u p0 f u_bcs forward_euler rho mu dt tol).1.F1
        = fun ui => E.vintMul (ui - u 0) - (dt / rho) • _rhs_weak E (u 0) (f 0) rho mu p0)
    ∧ (tentativeCall E u p0 f u_bcs forward_euler rho mu dt tol).2 = 1
    ∧ ((tentativeCall E u p0 f u_bcs backward_euler rho mu dt tol).1.F1
        = fun ui => E.vintMul (ui - u 0) - (dt / rho) • _rhs_weak E ui (f 1) rho mu p0)
    ∧ (tentativeCall E u p0 f u_bcs backward_euler rho mu dt tol).2 = 1
    ∧ ((tentativeCall E u p0 f u_bcs crank_nicolson rho mu dt tol).1.F1
        = fun ui => E.vintMul (ui - u 0)
            - (dt / rho) • ((1/2 : ℚ) •
                (_rhs_weak E (u 0) (f 0) rho mu p0 + _rhs_weak E ui (f 1) rho mu p0)))
    ∧ (tentativeCall E u p0 f u_bcs crank_nicolson rho mu dt tol).2 = 1 := by
  refine ⟨?_, ?_, ?_, ?_, ?_, ?_⟩
  · unfold tentativeCall
    rw [if_pos rfl]
  · unfold tentativeCall
    rw [if_pos rfl]
  · unfold tentativeCall
    rw [if_neg (by decide), if_pos rfl]
  · unfold tentativeCall
    rw [if_neg (by decide), if_pos rfl]
  · unfold tentativeCall
    rw [if_neg (by decide), if_neg (by decide)]
    dsimp only
    funext ui
    rw [mul_smul]
  · unfold tentativeCall
    rw [if_neg (by decide), if_neg (by decide)]

/-- Claim C7 (confirmed): the velocity correction solves the mass-matrix
system `∫u_new·v = ∫u*·v − (dt/rho)∫∇φ·v` with `φ = p1 − p0`, plus
`mu div(u*)` exactly when rotational form is enabled; the solve uses
relative tolerance `tol`, absolute tolerance 0, at most 100 iterations. -/
theorem C7_velocity_correction_system (E : Env S V T Tv B) (ui : V) (u : ℤ → V)
    (u_bcs : B) (p1 p0 : S) (mu rho dt : ℚ) (rotational_form : Bool) (tol : ℚ)
    (verbose : Bool) :
    ((correctionSystem E ui u u_bcs p1 p0 mu rho dt rotational_form tol verbose).A
        = fun u2 => E.vintMul u2)
    ∧ ((correctionSystem E ui u u_bcs p1 p0 mu rho dt rotational_form tol verbose).b
        = E.vintMul ui
          - (dt / rho) • E.vintGradS
              (p1 - p0 + (if rotational_form then mu • E.div ui else 0)))
    ∧ (correctionSystem E ui u u_bcs p1 p0 mu rho dt rotational_form tol
        verbose).params.relative_tolerance = tol
    ∧ (correctionSystem E ui u u_bcs p1 p0 mu rho dt rotational_form tol
        verbose).params.absolute_tolerance = 0
    ∧ (correctionSystem E ui u u_bcs p1 p0 mu rho dt rotational_form tol
        verbose).params.maximum_iterations = 100 := by
  refine ⟨rfl, ?_, rfl, rfl, rfl⟩
  unfold correctionSystem
  cases rotational_form <;> simp

/-- Claim C8 (confirmed): `Chorin.step` replaces the supplied pressure
history by a fresh zero field and fixes the method to backward Euler (its
result does not depend on the supplied `p0`), and the declared orders are
velocity 1.0 / pressure 0.5 for Chorin, 2.0 / 1.0 for IPCS and 2.0 / 1.5
for Rotational. -/
theorem C8_scheme_configurations (E : Env S V T Tv B) (dt : ℚ) (u : ℤ → V) (p0 : S)
    (u_bcs : B) (p_bcs : Option B) (rho mu : ℚ) (f : ℤ → V) (verbose : Bool)
    (tol : ℚ) :
    (Chorin.step E dt u p0 u_bcs p_bcs rho mu f verbose tol
        = _step E dt u (0 : S) u_bcs p_bcs rho mu backward_euler f false verbose tol)
    ∧ (∀ p0' : S, Chorin.step E dt u p0 u_bcs p_bcs rho mu f verbose tol
        = Chorin.step E dt u p0' u_bcs p_bcs rho mu f verbose tol)
    ∧ Chorin.order = ⟨1, 1/2⟩
    ∧ IPCS.order = ⟨2, 1⟩
    ∧ Rotational.order = ⟨2, 3/2⟩ :=
  ⟨rfl, fun _ => rfl, rfl, rfl, rfl⟩

/-- Claim C1, amended (corrected): a non-positive `dt` or `mu` makes `_step`
(and each scheme's `step`) fail with the fatal assertion before any of the
three sub-solves is attempted — the conclusion holds for every backend
`E`, whatever its solvers would return; `rho`, however, is not checked
(see the counterexample `C1_rho_not_checked`). -/
theorem C1_dt_mu_precondition (E : Env S V T Tv B) (dt : ℚ) (u : ℤ → V) (p0 : S)
    (u_bcs : B) (p_bcs : Option B) (rho mu : ℚ) (time_step_method : String)
    (f : ℤ → V) (rotational_form : Bool) (verbose : Bool) (tol : ℚ)
    (h : ¬ (0 < dt) ∨ ¬ (0 < mu)) :
    _step E dt u p0 u_bcs p_bcs rho mu time_step_method f rotational_form verbose tol
        = Except.error Err.assertionError
    ∧ Chorin.step E dt u p0 u_bcs p_bcs rho mu f verbose tol
        = Except.error Err.assertionError
    ∧ (∀ tsm, IPCS.step E tsm dt u p0 u_bcs p_bcs rho mu f verbose tol
        = Except.error Err.assertionError)
    ∧ (∀ tsm, Rotational.step E tsm dt u p0 u_bcs p_bcs rho mu f verbose tol
        = Except.error Err.assertionError) := by
  have key : ∀ (p0' : S) (m : String) (rot : Bool),
      _step E dt u p0' u_bcs p_bcs rho mu m f rot verbose tol
        = Except.error Err.assertionError := by
    intro p0' m rot
    unfold _step
    rcases h with h | h
    · rw [if_neg h]
    · by_cases hdt : 0 < dt
      · rw [if_pos hdt, if_neg h]
      · rw [if_neg hdt]
  exact ⟨key p0 time_step_method rotational_form, key 0 backward_euler false,
    fun tsm => key p0 tsm false, fun tsm => key p0 tsm true⟩

/-- Witness for `C1_dt_mu_precondition` at `dt = 0` on the concrete backend. -/
theorem C1_dt_mu_precondition_witness :
    _step toyEnv 0 toyU toyP0 () none 1 1 backward_euler toyF false true 1
        = Except.error Err.assertionError :=
  (C1_dt_mu_precondition toyEnv 0 toyU toyP0 () none 1 1 backward_euler toyF false true 1
    (Or.inl (by decide))).1

/-- Counterexample to claim C1 as stated: with `rho = -1` (non-positive) but
positive `dt` and `mu`, `_step` does not fail with a precondition error —
it runs to completion, because the source asserts only `dt > 0` and
`mu > 0`. -/
theorem C1_rho_not_checked :
    ((-1 : ℚ) < 0)
    ∧ (_step toyEnv 1 toyU toyP0 () none (-1) 1 backward_euler toyF false true 1).isOk
        = true := by
  refine ⟨by norm_num, ?_⟩
  rfl

/-- Claim C4 (confirmed): the tentative-velocity solve is a Newton solve
whose Jacobian is the derivative of the residual with respect to the
unknown, whose initial guess is the previous time-level velocity `u[0]`,
with absolute tolerance `tol`, relative tolerance 0, at most 10
iterations and `error_on_nonconvergence`; a solver failure is propagated
unchanged (no fallback or retry). -/
theorem C4_newton_configuration (E : Env S V T Tv B) (u : ℤ → V) (p0 : S) (f : ℤ → V)
    (u_bcs : B) (time_step_method : String) (rho mu dt tol : ℚ)
    (hm : time_step_method = forward_euler ∨ time_step_method = backward_euler
      ∨ time_step_method = crank_nicolson) :
    ((tentativeCall E u p0 f u_bcs time_step_method rho mu dt tol).1.J
        = E.derivative (tentativeCall E u p0 f u_bcs time_step_method rho mu dt tol).1.F1)
    ∧ (tentativeCall E u p0 f u_bcs time_step_method rho mu dt tol).1.initial = u 0
    ∧ (tentativeCall E u p0 f u_bcs time_step_method rho mu dt tol).1.params
        = ⟨"newton", 10, true, tol, 0, true⟩
    ∧ ∀ e, E.solveNewton (tentativeCall E u p0 f u_bcs time_step_method rho mu dt tol).1
          = Except.error e →
        _compute_tentative_velocity E u p0 f u_bcs time_step_method rho mu dt tol
          = Except.error (Err.solver e) := by
  refine ⟨?_, ?_, ?_, ?_⟩
  · unfold tentativeCall
    split_ifs <;> rfl
  · unfold tentativeCall
    split_ifs <;> rfl
  · unfold tentativeCall
    split_ifs <;> rfl
  · intro e he
    unfold _compute_tentative_velocity
    rw [if_pos hm]
    dsimp only
    rw [he]

/-- Witness for `C4_newton_configuration` at backward Euler on the concrete
backend. -/
theorem C4_newton_configuration_witness :
    (tentativeCall toyEnv toyU toyP0 toyF () backward_euler 1 1 1 (1/10^10)).1.initial
        = toyU 0
    ∧ (tentativeCall toyEnv toyU toyP0 toyF () backward_euler 1 1 1 (1/10^10)).1.params
        = ⟨"newton", 10, true, 1/10^10, 0, true⟩ :=
  ⟨(C4_newton_configuration toyEnv toyU toyP0 toyF () backward_euler 1 1 1 (1/10^10)
      (Or.inr (Or.inl rfl))).2.1,
   (C4_newton_configuration toyEnv toyU toyP0 toyF () backward_euler 1 1 1 (1/10^10)
      (Or.inr (Or.inl rfl))).2.2.1⟩

/-- Claim C6 (confirmed): in the pure-Neumann path the assembled right-hand
side is handed to CG unmodified (no null-space projection), the AMG
coarse-level relaxation is Jacobi, the iteration cap is 1000 (versus 100
in the Dirichlet path), absolute tolerance 0 and relative tolerance `tol`
in both paths, and non-convergence of either path's solver aborts the
pressure computation with a fatal error. -/
theorem C6_pure_neumann_policy (E : Env S V T Tv B) (p0 : S) (alpha rho dt mu : ℚ)
    (div_ui : S) (rotational_form : Bool) (tol : ℚ) (verbose : Bool) :
    ((pressureSystem E p0 alpha rho dt mu div_ui none rotational_form tol verbose).b
        = (-(alpha * rho / dt)) • E.intMul div_ui + E.intGrad p0
          - (if rotational_form then mu • E.intGrad div_ui else 0))
    ∧ (pressureSystem E p0 alpha rho dt mu div_ui none rotational_form tol
        verbose).params
        = ⟨"cg", none, "hypre_amg", tol, 0, 1000, verbose, true, some jacobi⟩
    ∧ (∀ bc, (pressureSystem E p0 alpha rho dt mu div_ui (some bc) rotational_form tol
        verbose).params
        = ⟨"iterative", some true, "hypre_amg", tol, 0, 100, verbose, true, none⟩)
    ∧ (∀ e, E.solveCG (pressureSystem E p0 alpha rho dt mu div_ui none rotational_form
            tol verbose)
          = Except.error e →
        _compute_pressure E p0 alpha rho dt mu div_ui none rotational_form tol verbose
          = Except.error (Err.solver e))
    ∧ (∀ bc e, E.solveIterativeS (pressureSystem E p0 alpha rho dt mu div_ui (some bc)
            rotational_form tol verbose)
          = Except.error e →
        _compute_pressure E p0 alpha rho dt mu div_ui (some bc) rotational_form tol
            verbose
          = Except.error (Err.solver e)) := by
  refine ⟨?_, rfl, fun bc => rfl, ?_, ?_⟩
  · unfold pressureSystem
    cases rotational_form <;> simp
  · intro e he
    unfold _compute_pressure
    dsimp only
    rw [he]
  · intro bc e he
    unfold _compute_pressure
    dsimp only
    rw [he]

/-- Witness for `C6_pure_neumann_policy`: on the failing concrete backend the
pure-Neumann pressure solve surfaces the solver failure. -/
theorem C6_pure_neumann_policy_witness :
    _compute_pressure toyEnvFail toyP0 1 1 1 1 toyP0 none false 1 true
        = Except.error (Err.solver SolveErr.nonconvergence) :=
  (C6_pure_neumann_policy toyEnvFail toyP0 1 1 1 1 toyP0 false 1 true).2.2.2.1
    SolveErr.nonconvergence rfl

/-- Claim C5 (confirmed): `_step` hands its `tol` argument to the pressure
and velocity-correction solves, but the tentative-velocity Newton solve is
invoked with the literal `1.0e-10`, so for any `tol ≠ 1.0e-10` the Newton
convergence criterion differs from the caller's request. -/
theorem C5_newton_tolerance_hardcoded (E : Env S V T Tv B) (dt : ℚ) (u : ℤ → V)
    (p0 : S) (u_bcs : B) (p_bcs : Option B) (rho mu : ℚ) (time_step_method : String)
    (f : ℤ → V) (rotational_form : Bool) (verbose : Bool) (tol : ℚ) (res : V × S)
    (tr : StepTrace S V T Tv B)
    (h : _step E dt u p0 u_bcs p_bcs rho mu time_step_method f rotational_form verbose
      tol = Except.ok (res, tr)) :
    tr.newton.params.absolute_tolerance = 1/10^10
    ∧ tr.pressure.params.relative_tolerance = tol
    ∧ tr.correction.params.relative_tolerance = tol
    ∧ (tol ≠ 1/10^10 → tr.newton.params.absolute_tolerance ≠ tol) := by
  unfold _step at h
  split at h
  · split at h
    · split at h
      · exact Except.noConfusion h
      · rename_i ui alpha newtonC heqT
        split at h
        · exact Except.noConfusion h
        · rename_i p1 pressC heqP
          split at h
          · exact Except.noConfusion h
          · rename_i u1 corrC heqC
            simp only [Except.ok.injEq, Prod.mk.injEq] at h
            obtain ⟨hres, htr⟩ := h
            subst htr
            have hN : newtonC.params.absolute_tolerance = 1/10^10 := by
              rw [compute_tentative_ok E u p0 f u_bcs time_step_method rho mu dt
                  (1/10^10) (ui, alpha) newtonC heqT, tentativeCall_params]
              rfl
            refine ⟨hN, ?_, ?_, ?_⟩
            · rw [compute_pressure_ok E p0 alpha rho dt mu (E.div ui) p_bcs
                  rotational_form tol verbose p1 pressC heqP, pressureSystem_relTol]
            · rw [compute_correction_ok E ui u u_bcs p1 p0 mu rho dt rotational_form
                  tol verbose u1 corrC heqC]
              rfl
            · intro hne
              rw [hN]
              exact fun hcon => hne hcon.symm
    · exact Except.noConfusion h
  · exact Except.noConfusion h

/-- Witness for `C5_newton_tolerance_hardcoded` on the concrete backend with
`tol = 1`. -/
theorem C5_newton_tolerance_hardcoded_witness :
    toyTrace.newton.params.absolute_tolerance = 1/10^10
    ∧ toyTrace.pressure.params.relative_tolerance = 1
    ∧ toyTrace.newton.params.absolute_tolerance ≠ 1 :=
  ⟨(C5_newton_tolerance_hardcoded toyEnv 1 toyU toyP0 () none 1 1 backward_euler toyF
      false true 1 toyRes toyTrace rfl).1,
   (C5_newton_tolerance_hardcoded toyEnv 1 toyU toyP0 () none 1 1 backward_euler toyF
      false true 1 toyRes toyTrace rfl).2.1,
   (C5_newton_tolerance_hardcoded toyEnv 1 toyU toyP0 () none 1 1 backward_euler toyF
      false true 1 toyRes toyTrace rfl).2.2.2 (by norm_num)⟩

/-- Claim C9, amended (corrected): with `mu = 0` the rotational pressure
correction produces the identical pressure computation; with `mu ≠ 0` the
rotational form alters the pressure output exactly when the assembled
correction term `mu ∫∇(div u*)·∇q` is nonzero (given an injective, i.e.
exact-solver-like, CG service) — a nonzero divergence alone is not enough,
since a constant divergence has zero gradient; and a full `_step` with
`mu = 0` never returns pressure fields at all, failing the `mu > 0`
assertion. -/
theorem C9_rotational_mu (E : Env S V T Tv B) (p0 : S) (alpha rho dt mu : ℚ)
    (div_ui : S) (p_bcs : Option B) (tol : ℚ) (verbose : Bool) :
    (_compute_pressure E p0 alpha rho dt 0 div_ui p_bcs true tol verbose
        = _compute_pressure E p0 alpha rho dt 0 div_ui p_bcs false tol verbose)
    ∧ (Function.Injective
          (fun b : T =>
            E.solveCG ⟨fun p => E.intGrad p, b, none, neumannKrylovParams tol verbose⟩) →
        mu • E.intGrad div_ui ≠ 0 →
        Except.map (fun x => x.1)
            (_compute_pressure E p0 alpha rho dt mu div_ui none true tol verbose)
          ≠ Except.map (fun x => x.1)
            (_compute_pressure E p0 alpha rho dt mu div_ui none false tol verbose))
    ∧ (∀ (dt' : ℚ) (u : ℤ → V) (u_bcs : B) (p_bcs' : Option B) (m : String)
          (f : ℤ → V) (rot verb : Bool) (tl : ℚ),
        _step E dt' u p0 u_bcs p_bcs' rho 0 m f rot verb tl
          = Except.error Err.assertionError) := by
  refine ⟨?_, ?_, ?_⟩
  · have hsys : pressureSystem E p0 alpha rho dt 0 div_ui p_bcs true tol verbose
        = pressureSystem E p0 alpha rho dt 0 div_ui p_bcs false tol verbose := by
      unfold pressureSystem
      cases p_bcs <;> simp
    unfold _compute_pressure
    rw [hsys]
  · intro hinj hne hcon
    rw [compute_pressure_neumann_map, compute_pressure_neumann_map] at hcon
    have hsolve := solverResult_inj _ _ hcon
    have hb := hinj hsolve
    exact hne (sub_eq_self.mp hb)
  · intro dt' u u_bcs p_bcs' m f rot verb tl
    unfold _step
    by_cases hdt : 0 < dt'
    · rw [if_pos hdt, if_neg (lt_irrefl 0)]
    · rw [if_neg hdt]

/-- Witness for `C9_rotational_mu`: on the concrete backend, with `mu = 1`
and `div_ui = x` (whose gradient is nonzero), the rotational correction
changes the pressure output. -/
theorem C9_rotational_mu_witness :
    Except.map (fun x => x.1)
        (_compute_pressure toyEnv toyP0 1 1 1 1 ((0 : ℚ), (1 : ℚ)) none true 1 true)
      ≠ Except.map (fun x => x.1)
        (_compute_pressure toyEnv toyP0 1 1 1 1 ((0 : ℚ), (1 : ℚ)) none false 1 true) :=
  (C9_rotational_mu toyEnv toyP0 1 1 1 1 ((0 : ℚ), (1 : ℚ)) none 1 true).2.1
    (fun a b hab => Except.ok.inj hab)
    (by norm_num [toyEnv, toyIntGrad, Prod.ext_iff])

/-- Counterexample to claim C9 as stated: on the concrete backend the
tentative stage returns the velocity `x`, whose divergence is the nonzero
constant 1, and `mu = 1 ≠ 0` — yet the rotational and non-rotational runs
of `_step` return the same pressure field, because the rotational
correction only involves the gradient of the divergence, which vanishes
for a constant divergence. -/
theorem C9_constant_divergence_counterexample :
    toyEnv.solveNewton
        (tentativeCall toyEnv toyU toyP0 toyF () backward_euler 1 1 1 (1/10^10)).1
      = Except.ok ((0 : ℚ), (1 : ℚ), (0 : ℚ))
    ∧ toyDiv ((0 : ℚ), (1 : ℚ), (0 : ℚ)) = ((1 : ℚ), (0 : ℚ))
    ∧ (((1 : ℚ), (0 : ℚ)) : QS) ≠ 0
    ∧ (1 : ℚ) ≠ 0
    ∧ pressureOf
        (_step toyEnv 1 toyU toyP0 () none 1 1 backward_euler toyF true true 1) 0
      = pressureOf
        (_step toyEnv 1 toyU toyP0 () none 1 1 backward_euler toyF false true 1) 0 := by
  have hstep : ∀ rot : Bool,
      pressureOf (_step toyEnv 1 toyU toyP0 () none 1 1 backward_euler toyF rot true 1) 0
        = (pressureSystem toyEnv toyP0 1 1 1 1
            (toyEnv.div ((0 : ℚ), (1 : ℚ), (0 : ℚ))) none rot 1 true).b :=
    fun rot => rfl
  have hdiv : toyEnv.div ((0 : ℚ), (1 : ℚ), (0 : ℚ)) = ((1 : ℚ), (0 : ℚ)) := by
    norm_num [toyEnv, toyDiv]
  have hg : toyEnv.intGrad ((1 : ℚ), (0 : ℚ)) = 0 := by
    norm_num [toyEnv, toyIntGrad, Prod.ext_iff]
  refine ⟨rfl, ?_, ?_, ?_, ?_⟩
  · exact hdiv
  · norm_num [Prod.ext_iff]
  · norm_num
  · rw [hstep true, hstep false]
    unfold pressureSystem
    simp [hdiv, hg]

/-- Claim C10 (confirmed): one `_step` on the heap model leaves every
caller-owned slot (in particular the velocity history `u[0]`, `u[-1]`,
the pressure `p0` and the two force fields) unchanged, and returns
corrected-velocity and pressure fields that are freshly allocated —
distinct from every input id and from each other.  The model functions
are pure, so no component retains field state between calls. -/
theorem C10_no_caller_mutation (α : Type) (Bk : ABackend α) (h : Heap α)
    (u0 um1 p0 f0 f1 : Nat) (hu0 : u0 < h.next) (hum1 : um1 < h.next)
    (hp0 : p0 < h.next) (hf0 : f0 < h.next) (hf1 : f1 < h.next) :
    (∀ i, i < h.next → (stepA Bk h u0 um1 p0 f0 f1).2.mem i = h.mem i)
    ∧ h.next ≤ (stepA Bk h u0 um1 p0 f0 f1).1.1
    ∧ h.next ≤ (stepA Bk h u0 um1 p0 f0 f1).1.2
    ∧ (stepA Bk h u0 um1 p0 f0 f1).1.1 ≠ (stepA Bk h u0 um1 p0 f0 f1).1.2
    ∧ (stepA Bk h u0 um1 p0 f0 f1).1.1 ≠ u0
    ∧ (stepA Bk h u0 um1 p0 f0 f1).1.1 ≠ um1
    ∧ (stepA Bk h u0 um1 p0 f0 f1).1.1 ≠ p0
    ∧ (stepA Bk h u0 um1 p0 f0 f1).1.1 ≠ f0
    ∧ (stepA Bk h u0 um1 p0 f0 f1).1.1 ≠ f1
    ∧ (stepA Bk h u0 um1 p0 f0 f1).1.2 ≠ u0
    ∧ (stepA Bk h u0 um1 p0 f0 f1).1.2 ≠ um1
    ∧ (stepA Bk h u0 um1 p0 f0 f1).1.2 ≠ p0
    ∧ (stepA Bk h u0 um1 p0 f0 f1).1.2 ≠ f0
    ∧ (stepA Bk h u0 um1 p0 f0 f1).1.2 ≠ f1 := by
  have h11 : (stepA Bk h u0 um1 p0 f0 f1).1.1 = h.next + 2 := rfl
  have h12 : (stepA Bk h u0 um1 p0 f0 f1).1.2 = h.next + 1 := rfl
  refine ⟨?_, ?_, ?_, ?_, ?_, ?_, ?_, ?_, ?_, ?_, ?_, ?_, ?_, ?_⟩
  · intro i hi
    show (Function.update (Function.update (Function.update (Function.update
        (Function.update (Function.update (Function.update h.mem
          h.next Bk.zeroField) h.next _) h.next _)
          (h.next + 1) Bk.zeroField) (h.next + 1) _)
          (h.next + 2) Bk.zeroField) (h.next + 2) _) i = h.mem i
    rw [Function.update_noteq (by omega : i ≠ h.next + 2),
        Function.update_noteq (by omega : i ≠ h.next + 2),
        Function.update_noteq (by omega : i ≠ h.next + 1),
        Function.update_noteq (by omega : i ≠ h.next + 1),
        Function.update_noteq (by omega : i ≠ h.next),
        Function.update_noteq (by omega : i ≠ h.next),
        Function.update_noteq (by omega : i ≠ h.next)]
  · rw [h11]; omega
  · rw [h12]; omega
  · rw [h11, h12]; omega
  · rw [h11]; omega
  · rw [h11]; omega
  · rw [h11]; omega
  · rw [h11]; omega
  · rw [h11]; omega
  · rw [h12]; omega
  · rw [h12]; omega
  · rw [h12]; omega
  · rw [h12]; omega
  · rw [h12]; omega

/-- Witness for `C10_no_caller_mutation` on a concrete heap of five
caller-owned fields. -/
theorem C10_no_caller_mutation_witness :
    (stepA toyBk toyHeap 0 1 2 3 4).2.mem 2 = toyHeap.mem 2
    ∧ (stepA toyBk toyHeap 0 1 2 3 4).1.1 ≠ 0
    ∧ (stepA toyBk toyHeap 0 1 2 3 4).1.2 ≠ 2 :=
  ⟨(C10_no_caller_mutation ℚ toyBk toyHeap 0 1 2 3 4 (by decide) (by decide) (by decide)
      (by decide) (by decide)).1 2 (by decide),
   (C10_no_caller_mutation ℚ toyBk toyHeap 0 1 2 3 4 (by decide) (by decide) (by decide)
      (by decide) (by decide)).2.2.2.2.1,
   (C10_no_caller_mutation ℚ toyBk toyHeap 0 1 2 3 4 (by decide) (by decide) (by decide)
      (by decide) (by decide)).2.2.2.2.2.2.2.2.2.2.2.1⟩
